import Mathlib

/-!
# Twitter clone backend (app.js): relational model of the handlers

The program is an Express application whose handlers each run one or two
SQL statements against a SQLite database.  The embedding keeps the five
tables as lists of rows (in storage order) and translates every SQL
statement of app.js into list operations:

* `FROM a INNER JOIN b ON c`  is a nested loop, `a` outermost;
* `LEFT JOIN`                 keeps an unmatched left row with `none`;
* `GROUP BY k` with `COUNT`   yields one row per distinct key;
* `ORDER BY date_time DESC`   is a stable sort on the text of the column;
* `db.get`                    is the first row of the result, if any;
* `db.all`                    is the whole result.

Each handler is given twice: as one function that runs it from its first
statement to its response (`route`), and as the steps between its awaits
(`advance`), which `interleave` runs for several requests in any order;
`complete_eq_route` relates the two.

The schema file is not part of the repository sources.  Identifier columns
are integer keys (never NULL) and the remaining columns are text.
-/

namespace Twitter

/-! ## Tables -/

/-- Row of table user. -/
structure UserRow where
  user_id : Nat
  name : String
  username : String
  password : String
  gender : String
deriving DecidableEq

/-- Row of table follower: follower_user_id follows following_user_id. -/
structure FollowerRow where
  follower_user_id : Nat
  following_user_id : Nat
deriving DecidableEq

/-- Row of table tweet. -/
structure TweetRow where
  tweet_id : Nat
  tweet : String
  user_id : Nat
  date_time : String
deriving DecidableEq

/-- Row of table like. -/
structure LikeRow where
  like_id : Nat
  tweet_id : Nat
  user_id : Nat
deriving DecidableEq

/-- Row of table reply. -/
structure ReplyRow where
  reply_id : Nat
  tweet_id : Nat
  user_id : Nat
  reply : String
deriving DecidableEq

/-- Contents of the database handle db. -/
structure Store where
  user : List UserRow
  follower : List FollowerRow
  tweet : List TweetRow
  like : List LikeRow
  reply : List ReplyRow
deriving DecidableEq

/-! ## SQL building blocks -/

/-- Result of db.get: the first row, or undefined. -/
def dbGet {α : Type} (rows : List α) : Option α := rows.head?

/-- FROM l INNER JOIN r ON cond: nested loop with l outermost. -/
def innerJoin {α β : Type} (l : List α) (r : List β) (cond : α → β → Bool) : List (α × β) :=
  l.flatMap fun a => (r.filter (cond a)).map fun b => (a, b)

/-- FROM l LEFT JOIN r ON cond: an unmatched left row is kept once, with NULL. -/
def leftJoin {α β : Type} (l : List α) (r : List β) (cond : α → β → Bool) :
    List (α × Option β) :=
  l.flatMap fun a =>
    match r.filter (cond a) with
    | [] => [(a, none)]
    | b :: bs => (b :: bs).map fun m => (a, some m)

/-- SELECT k, COUNT(id) FROM t GROUP BY k, given the k column of t:
one row per distinct key, with the number of rows carrying it. -/
def groupCount (keys : List Nat) : List (Nat × Nat) :=
  keys.dedup.map fun k => (k, keys.count k)

/-- COALESCE(x, 0). -/
def coalesce0 (x : Option Nat) : Nat := x.getD 0

/-- Collation key of a text value: SQLite compares text bytewise, which on
UTF-8 is the lexicographic order of the code points. -/
def sqlText (s : String) : List Nat := s.toList.map Char.toNat

/-- ORDER BY key DESC as a stable sort. -/
def orderByDesc {α : Type} (key : α → String) (rows : List α) : List α :=
  rows.insertionSort fun a b => sqlText (key b) ≤ sqlText (key a)

/-- Modelled from the spec: the table schema is not in the sources; the spec
gives User.id and Tweet.id as unique and generated.  The value an INSERT that
leaves the id column out stores in it is one more than the greatest id of the
table, as SQLite assigns the rowid of an integer primary key. -/
def nextId (ids : List Nat) : Nat := ids.foldr max 0 + 1

/-! ## Requests and responses -/

/-- JSON body of a request (the fields the handlers read). -/
structure Body where
  username : String
  password : String
  name : String
  gender : String
  tweet : String
deriving DecidableEq

/-- Incoming request: the authorization header, the :tweetId path
parameter (as the integer the key column is compared with) and the body. -/
structure Request where
  authorization : Option String
  tweetId : Nat
  body : Body
deriving DecidableEq

/-- Claims carried by a token. -/
structure Payload where
  username : String
  userId : Nat
deriving DecidableEq

/-- Request after authenticateToken stored the payload on it. -/
structure AuthRequest extends Request where
  username : String
  userId : Nat
deriving DecidableEq

/-- Entry of the feed. -/
structure FeedEntry where
  username : String
  tweet : String
  dateTime : String
deriving DecidableEq

/-- Entry of the tweet detail and own-tweets responses. -/
structure TweetDetails where
  tweet : String
  likes : Nat
  replies : Nat
  dateTime : String
deriving DecidableEq

/-- Entry of the replies response. -/
structure ReplyEntry where
  name : String
  reply : String
deriving DecidableEq

/-- What response.send was given. -/
inductive Sent where
  | text (msg : String)
  | feed (tweets : List FeedEntry)
  | names (rows : List String)
  | details (row : Option TweetDetails)
  | likes (usernames : List String)
  | replies (rows : List ReplyEntry)
  | tweets (rows : List TweetDetails)
  | jwtToken (token : String)
deriving DecidableEq

/-- HTTP response: status code and what was sent. -/
structure Response where
  status : Nat
  sent : Sent
deriving DecidableEq

/-- Outcome of response.send(x): status 200. -/
def send (x : Sent) : Response := ⟨200, x⟩

/-- Outcome of response.status(code).send(msg). -/
def statusSend (code : Nat) (msg : String) : Response := ⟨code, .text msg⟩

/-! ## Authentication middleware -/

/-- JavaScript split on a single space, on the characters of a string. -/
def splitSpace : List Char → List (List Char)
  | [] => [[]]
  | c :: cs =>
    if c = Char.ofNat 32 then [] :: splitSpace cs
    else
      match splitSpace cs with
      | [] => [[c]]
      | p :: ps => (c :: p) :: ps

/-- Token read from the authorization header: parts[1] of the header split
on spaces, undefined without a header or without a second part. -/
def bearerToken (request : Request) : Option String :=
  match request.authorization with
  | some authHeader => ((splitSpace authHeader.toList).get? 1).map String.mk
  | none => none

/-- Middleware authenticateToken(request, response, next).  The token check
jwt.verify(_, MY_SECRET_KEY, _) is the parameter verify; response is what
becomes of the request when the middleware answers it, next is the handler
that follows.  The middleware does not touch the database. -/
def authenticateToken {ρ : Type} (verify : String → Option Payload) (request : Request)
    (response : Response → ρ) (next : AuthRequest → ρ) : ρ :=
  match bearerToken request with
  | none => response (statusSend 401 "Invalid JWT Token")
  | some jwtToken =>
    match verify jwtToken with
    | none => response (statusSend 401 "Invalid JWT Token")
    | some payload =>
      next { request with username := payload.username, userId := payload.userId }

/-! ## Helper: check if following -/

/-- Rows of the query of isFollowingUser (column tid). -/
def isFollowingUserQuery (db : Store) (tweetId userId : Nat) : List Nat :=
  ((innerJoin db.tweet db.follower fun tweet follower =>
      tweet.user_id == follower.following_user_id).filter fun row =>
      row.1.tweet_id == tweetId && row.2.follower_user_id == userId).map fun row =>
    row.1.tweet_id

/-- Helper isFollowingUser. -/
def isFollowingUser (db : Store) (request : AuthRequest) (tweetId : Nat) : Bool :=
  let userId := request.userId
  let result := dbGet (isFollowingUserQuery db tweetId userId)
  result.isSome

/-! ## API 1: register -/

/-- JavaScript length of a string: the number of UTF-16 code units. -/
def jsLength (s : String) : Nat :=
  (s.toList.map fun c => if c.toNat < 65536 then 1 else 2).sum

/-- Handler of POST /register/.  The parameter hash is bcrypt.hash(_, 10)
with the salt drawn for this call. -/
def register (hash : String → String) (db : Store) (request : Request) : Store × Response :=
  let username := request.body.username
  let password := request.body.password
  let name := request.body.name
  let gender := request.body.gender
  let dbUser := dbGet (db.user.filter fun row => row.username == username)
  if dbUser.isSome then (db, statusSend 400 "User already exists")
  else if jsLength password < 6 then (db, statusSend 400 "Password is too short")
  else
    let hashedPassword := hash password
    ({ db with user := db.user ++
        [⟨nextId (db.user.map fun row => row.user_id), name, username, hashedPassword, gender⟩] },
      send (.text "User created successfully"))

/-! ## API 2: login -/

/-- Handler of POST /login/.  The parameters are compare for bcrypt.compare
and sign for jwt.sign(_, MY_SECRET_KEY). -/
def login (compare : String → String → Bool) (sign : Payload → String) (db : Store)
    (request : Request) : Store × Response :=
  let username := request.body.username
  let password := request.body.password
  match dbGet (db.user.filter fun row => row.username == username) with
  | none => (db, statusSend 400 "Invalid user")
  | some dbUser =>
    let isPasswordCorrect := compare password dbUser.password
    if isPasswordCorrect then
      let payload : Payload := ⟨username, dbUser.user_id⟩
      let jwtToken := sign payload
      (db, send (.jwtToken jwtToken))
    else (db, statusSend 400 "Invalid password")

/-! ## API 3: latest feed -/

/-- FROM, JOIN and WHERE part of the feed query: follower f joined with
tweet t and user u, restricted to the follower rows of userId. -/
def feedJoin (db : Store) (userId : Nat) : List ((FollowerRow × TweetRow) × UserRow) :=
  (innerJoin
      (innerJoin db.follower db.tweet fun f t => f.following_user_id == t.user_id)
      db.user fun ft u => u.user_id == ft.2.user_id).filter fun row =>
    row.1.1.follower_user_id == userId

/-- Rows of the feed query before the projection: ORDER BY and LIMIT 4 on
the join. -/
def feedRows (db : Store) (userId : Nat) : List ((FollowerRow × TweetRow) × UserRow) :=
  (orderByDesc (fun row => row.1.2.date_time) (feedJoin db userId)).take 4

/-- Projection of the feed query: username, tweet, dateTime. -/
def feedSelect (row : (FollowerRow × TweetRow) × UserRow) : FeedEntry :=
  ⟨row.2.username, row.1.2.tweet, row.1.2.date_time⟩

/-- Result of the feed query. -/
def feedQuery (db : Store) (userId : Nat) : List FeedEntry :=
  (feedRows db userId).map feedSelect

/-- Handler of GET /user/tweets/feed/. -/
def feedHandler (db : Store) (request : AuthRequest) : Store × Response :=
  let userId := request.userId
  let tweets := feedQuery db userId
  (db, send (.feed tweets))

/-! ## API 4 and 5: following and followers -/

/-- Query of GET /user/following/. -/
def followingQuery (db : Store) (userId : Nat) : List String :=
  ((innerJoin db.follower db.user fun f u => u.user_id == f.following_user_id).filter
    fun row => row.1.follower_user_id == userId).map fun row => row.2.name

/-- Handler of GET /user/following/. -/
def followingHandler (db : Store) (request : AuthRequest) : Store × Response :=
  let userId := request.userId
  let following := followingQuery db userId
  (db, send (.names following))

/-- Query of GET /user/followers/. -/
def followersQuery (db : Store) (userId : Nat) : List String :=
  ((innerJoin db.follower db.user fun f u => u.user_id == f.follower_user_id).filter
    fun row => row.1.following_user_id == userId).map fun row => row.2.name

/-- Handler of GET /user/followers/. -/
def followersHandler (db : Store) (request : AuthRequest) : Store × Response :=
  let userId := request.userId
  let followers := followersQuery db userId
  (db, send (.names followers))

/-! ## API 6: tweet details -/

/-- Row of a tweet joined with its two optional count rows. -/
abbrev CountedRow := (TweetRow × Option (Nat × Nat)) × Option (Nat × Nat)

/-- Projection shared by the tweet detail and own-tweets queries:
tweet, COALESCE(likes, 0), COALESCE(replies, 0), dateTime. -/
def detailsSelect (row : CountedRow) : TweetDetails :=
  ⟨row.1.1.tweet, coalesce0 (row.1.2.map Prod.snd), coalesce0 (row.2.map Prod.snd),
    row.1.1.date_time⟩

/-- Join of the tweet table with the two count sub-queries. -/
def countedJoin (db : Store) (likes_count replies_count : List (Nat × Nat)) : List CountedRow :=
  leftJoin (leftJoin db.tweet likes_count fun t lc => lc.1 == t.tweet_id)
    replies_count fun tl rc => rc.1 == tl.1.tweet_id

/-- Rows of the tweet detail query: both sub-queries are filtered to the
tweet id before grouping. -/
def tweetDetailsRows (db : Store) (tweetId : Nat) : List CountedRow :=
  let likes_count :=
    groupCount ((db.like.filter fun l => l.tweet_id == tweetId).map fun l => l.tweet_id)
  let replies_count :=
    groupCount ((db.reply.filter fun r => r.tweet_id == tweetId).map fun r => r.tweet_id)
  (countedJoin db likes_count replies_count).filter fun row => row.1.1.tweet_id == tweetId

/-- Result of db.get on the tweet detail query. -/
def tweetDetailsQuery (db : Store) (tweetId : Nat) : Option TweetDetails :=
  dbGet ((tweetDetailsRows db tweetId).map detailsSelect)

/-- Handler of GET /tweets/:tweetId/. -/
def tweetDetailsHandler (db : Store) (request : AuthRequest) : Store × Response :=
  let tweetId := request.tweetId
  let canAccess := isFollowingUser db request tweetId
  if !canAccess then (db, statusSend 401 "Invalid Request")
  else
    let tweetDetails := tweetDetailsQuery db tweetId
    (db, send (.details tweetDetails))

/-! ## API 7 and 8: likes and replies of a tweet -/

/-- Query of GET /tweets/:tweetId/likes/. -/
def likesQuery (db : Store) (tweetId : Nat) : List String :=
  ((innerJoin db.like db.user fun l u => l.user_id == u.user_id).filter
    fun row => row.1.tweet_id == tweetId).map fun row => row.2.username

/-- Handler of GET /tweets/:tweetId/likes/. -/
def likesHandler (db : Store) (request : AuthRequest) : Store × Response :=
  let tweetId := request.tweetId
  let canAccess := isFollowingUser db request tweetId
  if !canAccess then (db, statusSend 401 "Invalid Request")
  else
    let likes := likesQuery db tweetId
    (db, send (.likes likes))

/-- Query of GET /tweets/:tweetId/replies/. -/
def repliesQuery (db : Store) (tweetId : Nat) : List ReplyEntry :=
  ((innerJoin db.reply db.user fun r u => r.user_id == u.user_id).filter
    fun row => row.1.tweet_id == tweetId).map fun row => ⟨row.2.name, row.1.reply⟩

/-- Handler of GET /tweets/:tweetId/replies/. -/
def repliesHandler (db : Store) (request : AuthRequest) : Store × Response :=
  let tweetId := request.tweetId
  let canAccess := isFollowingUser db request tweetId
  if !canAccess then (db, statusSend 401 "Invalid Request")
  else
    let replies := repliesQuery db tweetId
    (db, send (.replies replies))

/-! ## API 9: tweets of the user -/

/-- Rows of the own-tweets query before the projection: the sub-queries
group over all likes and replies. -/
def userTweetsRows (db : Store) (userId : Nat) : List CountedRow :=
  let likes_count := groupCount (db.like.map fun l => l.tweet_id)
  let replies_count := groupCount (db.reply.map fun r => r.tweet_id)
  orderByDesc (fun row => row.1.1.date_time)
    ((countedJoin db likes_count replies_count).filter fun row => row.1.1.user_id == userId)

/-- Result of the own-tweets query. -/
def userTweetsQuery (db : Store) (userId : Nat) : List TweetDetails :=
  (userTweetsRows db userId).map detailsSelect

/-- Handler of GET /user/tweets/. -/
def userTweetsHandler (db : Store) (request : AuthRequest) : Store × Response :=
  let userId := request.userId
  let tweets := userTweetsQuery db userId
  (db, send (.tweets tweets))

/-! ## API 10: create tweet -/

/-- Handler of POST /user/tweets/.  The parameter dateTime is the clock
reading new Date() in the form YYYY-MM-DD HH:MM:SS. -/
def createTweetHandler (dateTime : String) (db : Store) (request : AuthRequest) :
    Store × Response :=
  let tweet := request.body.tweet
  let userId := request.userId
  ({ db with tweet := db.tweet ++
      [⟨nextId (db.tweet.map fun row => row.tweet_id), tweet, userId, dateTime⟩] },
    send (.text "Created a Tweet"))

/-! ## API 11: delete tweet -/

/-- Handler of DELETE /tweets/:tweetId/. -/
def deleteTweetHandler (db : Store) (request : AuthRequest) : Store × Response :=
  let tweetId := request.tweetId
  let userId := request.userId
  let tweet := dbGet (db.tweet.filter fun row => row.tweet_id == tweetId && row.user_id == userId)
  if tweet.isNone then (db, statusSend 401 "Invalid Request")
  else
    ({ db with tweet := db.tweet.filter fun row => !(row.tweet_id == tweetId) },
      send (.text "Tweet Removed"))

/-! ## Routes -/

/-- A call of one of the routes of the application. -/
inductive Call where
  | postRegister (hash : String → String) (request : Request)
  | postLogin (compare : String → String → Bool) (sign : Payload → String) (request : Request)
  | getFeed (request : Request)
  | getFollowing (request : Request)
  | getFollowers (request : Request)
  | getTweet (request : Request)
  | getLikes (request : Request)
  | getReplies (request : Request)
  | getUserTweets (request : Request)
  | postUserTweets (dateTime : String) (request : Request)
  | deleteTweet (request : Request)

/-- Dispatch of a call to its middleware and handler, the handler running
from its first statement to its response with no other request in between. -/
def route (verify : String → Option Payload) (db : Store) : Call → Store × Response
  | .postRegister hash request => register hash db request
  | .postLogin compare sign request => login compare sign db request
  | .getFeed request =>
    authenticateToken verify request (fun r => (db, r)) (feedHandler db)
  | .getFollowing request =>
    authenticateToken verify request (fun r => (db, r)) (followingHandler db)
  | .getFollowers request =>
    authenticateToken verify request (fun r => (db, r)) (followersHandler db)
  | .getTweet request =>
    authenticateToken verify request (fun r => (db, r)) (tweetDetailsHandler db)
  | .getLikes request =>
    authenticateToken verify request (fun r => (db, r)) (likesHandler db)
  | .getReplies request =>
    authenticateToken verify request (fun r => (db, r)) (repliesHandler db)
  | .getUserTweets request =>
    authenticateToken verify request (fun r => (db, r)) (userTweetsHandler db)
  | .postUserTweets dateTime request =>
    authenticateToken verify request (fun r => (db, r)) (createTweetHandler dateTime db)
  | .deleteTweet request =>
    authenticateToken verify request (fun r => (db, r)) (deleteTweetHandler db)

/-! ## Requests in flight

Every handler is an async function: it is suspended at each await and other
requests run in between.  A statement sent to the database runs as one
step.  A request in flight is its call together with the await it is
suspended at. -/

/-- Where a request in flight is suspended. -/
inductive Phase where
  | pending
  | registerHash
  | registerInsert (hashedPassword : String)
  | loginCompare (dbUser : UserRow)
  | gated (request : AuthRequest)
  | deleteRun (request : AuthRequest)
  | done (response : Response)
deriving DecidableEq

/-- Request in flight. -/
structure Task where
  call : Call
  phase : Phase

/-- Resumption of a request in flight up to its next await, or to its
response.

* register: the await of db.get (line 60) ends with the username check and
  the length check, the await of bcrypt.hash (line 72) with the hash, the
  await of db.run (line 76) with the INSERT and the response;
* login: db.get (line 89), then bcrypt.compare (line 96);
* tweet details, likes, replies: the query of isFollowingUser, then the
  query of the handler;
* delete: db.get (line 283), then the DELETE (line 293);
* the other handlers await one statement. -/
def advance (verify : String → Option Payload) (db : Store) (task : Task) : Store × Task :=
  match task.call, task.phase with
  | .postRegister _ request, .pending =>
    let username := request.body.username
    let password := request.body.password
    let dbUser := dbGet (db.user.filter fun row => row.username == username)
    if dbUser.isSome then (db, ⟨task.call, .done (statusSend 400 "User already exists")⟩)
    else if jsLength password < 6 then
      (db, ⟨task.call, .done (statusSend 400 "Password is too short")⟩)
    else (db, ⟨task.call, .registerHash⟩)
  | .postRegister hash request, .registerHash =>
    (db, ⟨task.call, .registerInsert (hash request.body.password)⟩)
  | .postRegister _ request, .registerInsert hashedPassword =>
    ({ db with user := db.user ++
        [⟨nextId (db.user.map fun row => row.user_id), request.body.name,
          request.body.username, hashedPassword, request.body.gender⟩] },
      ⟨task.call, .done (send (.text "User created successfully"))⟩)
  | .postLogin _ _ request, .pending =>
    match dbGet (db.user.filter fun row => row.username == request.body.username) with
    | none => (db, ⟨task.call, .done (statusSend 400 "Invalid user")⟩)
    | some dbUser => (db, ⟨task.call, .loginCompare dbUser⟩)
  | .postLogin compare sign request, .loginCompare dbUser =>
    if compare request.body.password dbUser.password then
      (db, ⟨task.call, .done (send (.jwtToken (sign ⟨request.body.username, dbUser.user_id⟩)))⟩)
    else (db, ⟨task.call, .done (statusSend 400 "Invalid password")⟩)
  | .getFeed request, .pending =>
    authenticateToken verify request (fun r => (db, ⟨task.call, .done r⟩))
      fun request => (db, ⟨task.call, .done (feedHandler db request).2⟩)
  | .getFollowing request, .pending =>
    authenticateToken verify request (fun r => (db, ⟨task.call, .done r⟩))
      fun request => (db, ⟨task.call, .done (followingHandler db request).2⟩)
  | .getFollowers request, .pending =>
    authenticateToken verify request (fun r => (db, ⟨task.call, .done r⟩))
      fun request => (db, ⟨task.call, .done (followersHandler db request).2⟩)
  | .getUserTweets request, .pending =>
    authenticateToken verify request (fun r => (db, ⟨task.call, .done r⟩))
      fun request => (db, ⟨task.call, .done (userTweetsHandler db request).2⟩)
  | .postUserTweets dateTime request, .pending =>
    authenticateToken verify request (fun r => (db, ⟨task.call, .done r⟩))
      fun request =>
        ((createTweetHandler dateTime db request).1,
          ⟨task.call, .done (createTweetHandler dateTime db request).2⟩)
  | .getTweet request, .pending =>
    authenticateToken verify request (fun r => (db, ⟨task.call, .done r⟩))
      fun request =>
        if !isFollowingUser db request request.tweetId then
          (db, ⟨task.call, .done (statusSend 401 "Invalid Request")⟩)
        else (db, ⟨task.call, .gated request⟩)
  | .getTweet _, .gated request =>
    (db, ⟨task.call, .done (send (.details (tweetDetailsQuery db request.tweetId)))⟩)
  | .getLikes request, .pending =>
    authenticateToken verify request (fun r => (db, ⟨task.call, .done r⟩))
      fun request =>
        if !isFollowingUser db request request.tweetId then
          (db, ⟨task.call, .done (statusSend 401 "Invalid Request")⟩)
        else (db, ⟨task.call, .gated request⟩)
  | .getLikes _, .gated request =>
    (db, ⟨task.call, .done (send (.likes (likesQuery db request.tweetId)))⟩)
  | .getReplies request, .pending =>
    authenticateToken verify request (fun r => (db, ⟨task.call, .done r⟩))
      fun request =>
        if !isFollowingUser db request request.tweetId then
          (db, ⟨task.call, .done (statusSend 401 "Invalid Request")⟩)
        else (db, ⟨task.call, .gated request⟩)
  | .getReplies _, .gated request =>
    (db, ⟨task.call, .done (send (.replies (repliesQuery db request.tweetId)))⟩)
  | .deleteTweet request, .pending =>
    authenticateToken verify request (fun r => (db, ⟨task.call, .done r⟩))
      fun request =>
        let tweet := dbGet (db.tweet.filter fun row =>
          row.tweet_id == request.tweetId && row.user_id == request.userId)
        if tweet.isNone then (db, ⟨task.call, .done (statusSend 401 "Invalid Request")⟩)
        else (db, ⟨task.call, .deleteRun request⟩)
  | .deleteTweet _, .deleteRun request =>
    ({ db with tweet := db.tweet.filter fun row => !(row.tweet_id == request.tweetId) },
      ⟨task.call, .done (send (.text "Tweet Removed"))⟩)
  | _, _ => (db, task)

/-- Requests in flight resumed in the order of the schedule: each entry
names the request (by position) that runs up to its next await. -/
def interleave (verify : String → Option Payload) :
    Store → List Task → List Nat → Store × List Task
  | db, tasks, [] => (db, tasks)
  | db, tasks, i :: schedule =>
    match tasks.get? i with
    | none => interleave verify db tasks schedule
    | some task =>
      interleave verify (advance verify db task).1 (tasks.set i (advance verify db task).2)
        schedule

/-- A request run from arrival to its response with nothing in between: no
handler has more than three awaits. -/
def complete (verify : String → Option Payload) (db : Store) (call : Call) : Store × Task :=
  let r1 := advance verify db ⟨call, .pending⟩
  let r2 := advance verify r1.1 r1.2
  advance verify r2.1 r2.2

/-! ## Example data -/

/-- Three users; bob follows alice; alice has two tweets, the first with
two likes and one reply. -/
def exampleStore : Store where
  user := [⟨1, "Alice", "alice", "h1", "f"⟩, ⟨2, "Bob", "bob", "h2", "m"⟩,
    ⟨3, "Cara", "cara", "h3", "f"⟩]
  follower := [⟨2, 1⟩]
  tweet := [⟨1, "hello", 1, "2021-04-07 14:50:19"⟩, ⟨2, "again", 1, "2021-04-08 10:00:00"⟩]
  like := [⟨1, 1, 2⟩, ⟨2, 1, 3⟩]
  reply := [⟨1, 1, 2, "nice"⟩]

/-- Token check that accepts one token for each of the three users. -/
def exampleVerify (token : String) : Option Payload :=
  if token = "tokAlice" then some ⟨"alice", 1⟩
  else if token = "tokBob" then some ⟨"bob", 2⟩
  else if token = "tokCara" then some ⟨"cara", 3⟩
  else none

/-- Request with a bearer token, a tweet id and a tweet text. -/
def exampleRequest (token : String) (tweetId : Nat) (tweet : String) : Request :=
  ⟨some ("Bearer " ++ token), tweetId, ⟨"", "", "", "", tweet⟩⟩

/-- Registration request. -/
def exampleRegistration (username password : String) : Request :=
  ⟨none, 0, ⟨username, password, "Name", "f", ""⟩⟩

/-- User 1 follows users 2 and 3; user 2 has the newer tweet but no row in
the user table. -/
def danglingAuthorStore : Store where
  user := [⟨1, "Alice", "alice", "h1", "f"⟩, ⟨3, "Cara", "cara", "h3", "f"⟩]
  follower := [⟨1, 2⟩, ⟨1, 3⟩]
  tweet := [⟨1, "hidden", 2, "2021-01-02 00:00:00"⟩, ⟨2, "shown", 3, "2021-01-01 00:00:00"⟩]
  like := []
  reply := []

/-- Bob (2) follows alice (1), who has five tweets on five days; cara (3)
follows nobody. -/
def busyStore : Store where
  user := [⟨1, "Alice", "alice", "h1", "f"⟩, ⟨2, "Bob", "bob", "h2", "m"⟩,
    ⟨3, "Cara", "cara", "h3", "f"⟩]
  follower := [⟨2, 1⟩]
  tweet := [⟨1, "one", 1, "2021-01-01 09:00:00"⟩, ⟨2, "two", 1, "2021-01-02 09:00:00"⟩,
    ⟨3, "three", 1, "2021-01-03 09:00:00"⟩, ⟨4, "four", 1, "2021-01-04 09:00:00"⟩,
    ⟨5, "five", 1, "2021-01-05 09:00:00"⟩]
  like := []
  reply := []

/-! ## Properties of the SQL building blocks -/

theorem dbGet_isSome_iff {α : Type} (rows : List α) :
    (dbGet rows).isSome = true ↔ ∃ x, x ∈ rows := by
  cases rows with
  | nil => simp [dbGet]
  | cons a l => simp [dbGet]

theorem mem_innerJoin {α β : Type} (l : List α) (r : List β) (cond : α → β → Bool)
    (a : α) (b : β) :
    (a, b) ∈ innerJoin l r cond ↔ a ∈ l ∧ b ∈ r ∧ cond a b = true := by
  simp only [innerJoin, List.mem_flatMap, List.mem_map, List.mem_filter, Prod.mk.injEq]
  constructor
  · rintro ⟨a1, ha1, b1, ⟨hb1, hc⟩, rfl, rfl⟩
    exact ⟨ha1, hb1, hc⟩
  · rintro ⟨ha, hb, hc⟩
    exact ⟨a, ha, b, ⟨hb, hc⟩, rfl, rfl⟩

theorem authenticateToken_ok {ρ : Type} (verify : String → Option Payload)
    (request : Request) (response : Response → ρ) (next : AuthRequest → ρ)
    (jwtToken : String) (payload : Payload)
    (htoken : bearerToken request = some jwtToken) (hverify : verify jwtToken = some payload) :
    authenticateToken verify request response next =
      next { request with username := payload.username, userId := payload.userId } := by
  simp [authenticateToken, htoken, hverify]

/-! ## Visibility gate -/

theorem isFollowingUser_eq_true_iff (db : Store) (request : AuthRequest) (t : Nat) :
    isFollowingUser db request t = true ↔
      ∃ tw ∈ db.tweet, tw.tweet_id = t ∧
        ∃ f ∈ db.follower, f.follower_user_id = request.userId ∧
          f.following_user_id = tw.user_id := by
  unfold isFollowingUser
  simp only [dbGet_isSome_iff, isFollowingUserQuery, List.mem_map, List.mem_filter]
  constructor
  · rintro ⟨x, ⟨tw, f⟩, ⟨hmem, hw⟩, -⟩
    rw [mem_innerJoin] at hmem
    obtain ⟨htw, hf, hc⟩ := hmem
    simp only [Bool.and_eq_true, beq_iff_eq] at hw hc
    exact ⟨tw, htw, hw.1, f, hf, hw.2, hc.symm⟩
  · rintro ⟨tw, htw, hid, f, hf, hfu, hfo⟩
    refine ⟨tw.tweet_id, (tw, f), ⟨?_, ?_⟩, rfl⟩
    · rw [mem_innerJoin]
      exact ⟨htw, hf, by simp [hfo]⟩
    · simp [hid, hfu]

/-- C1: for every store, viewer and tweet id, isFollowingUser answers true
exactly when a tweet row with that id exists together with a follower row from
the viewer to that tweet's author; it answers false for an id of no tweet. -/
theorem isFollowingUser_spec (db : Store) (request : AuthRequest) (t : Nat) :
    (isFollowingUser db request t = true ↔
      ∃ tw ∈ db.tweet, tw.tweet_id = t ∧
        ∃ f ∈ db.follower, f.follower_user_id = request.userId ∧
          f.following_user_id = tw.user_id) ∧
    ((∀ tw ∈ db.tweet, tw.tweet_id ≠ t) → isFollowingUser db request t = false) := by
  refine ⟨isFollowingUser_eq_true_iff db request t, fun hno => ?_⟩
  rw [← Bool.not_eq_true, isFollowingUser_eq_true_iff]
  rintro ⟨tw, htw, hid, -⟩
  exact hno tw htw hid

theorem isFollowingUser_spec_witness :
    isFollowingUser exampleStore
        { exampleRequest "tokBob" 1 "" with username := "bob", userId := 2 } 1 = true ∧
      isFollowingUser exampleStore
        { exampleRequest "tokBob" 9 "" with username := "bob", userId := 2 } 9 = false :=
  ⟨(isFollowingUser_spec exampleStore _ 1).1.mpr
      ⟨⟨1, "hello", 1, "2021-04-07 14:50:19"⟩, by decide, rfl, ⟨2, 1⟩, by decide, rfl, rfl⟩,
    (isFollowingUser_spec exampleStore _ 9).2 (by decide)⟩

/-! ## Tweet-scoped reads -/

theorem gated_handler_spec (db : Store) (request : AuthRequest)
    (handler : Store → AuthRequest → Store × Response) (ok : Response)
    (hok : ok.status = 200)
    (hdef : handler db request =
      if !isFollowingUser db request request.tweetId then (db, statusSend 401 "Invalid Request")
      else (db, ok)) :
    ((handler db request).2.status = 401 ↔
      isFollowingUser db request request.tweetId = false) ∧
    (isFollowingUser db request request.tweetId = false →
      (handler db request).2 = statusSend 401 "Invalid Request") ∧
    (handler db request).2.status ≠ 404 := by
  rw [hdef]
  cases h : isFollowingUser db request request.tweetId <;> simp [statusSend, hok]

/-- C2: for an authenticated caller, each of the three tweet-scoped read
routes answers 401 exactly when isFollowingUser is false for the caller and
the tweet id; whenever it is false (tweet absent or author not followed) the
response is the same 401 Invalid Request, and the status is never 404. -/
theorem tweet_reads_unauthorized (verify : String → Option Payload) (db : Store)
    (request : Request) (jwtToken : String) (payload : Payload)
    (htoken : bearerToken request = some jwtToken) (hverify : verify jwtToken = some payload)
    (call : Call)
    (hcall : call = .getTweet request ∨ call = .getLikes request ∨ call = .getReplies request) :
    ((route verify db call).2.status = 401 ↔
      isFollowingUser db { request with username := payload.username, userId := payload.userId }
        request.tweetId = false) ∧
    (isFollowingUser db { request with username := payload.username, userId := payload.userId }
        request.tweetId = false →
      (route verify db call).2 = statusSend 401 "Invalid Request") ∧
    (route verify db call).2.status ≠ 404 := by
  rcases hcall with rfl | rfl | rfl
  · simp only [route, authenticateToken_ok verify request _ _ jwtToken payload htoken hverify]
    exact gated_handler_spec db _ tweetDetailsHandler (send (.details (tweetDetailsQuery db request.tweetId)))
      rfl rfl
  · simp only [route, authenticateToken_ok verify request _ _ jwtToken payload htoken hverify]
    exact gated_handler_spec db _ likesHandler (send (.likes (likesQuery db request.tweetId)))
      rfl rfl
  · simp only [route, authenticateToken_ok verify request _ _ jwtToken payload htoken hverify]
    exact gated_handler_spec db _ repliesHandler (send (.replies (repliesQuery db request.tweetId)))
      rfl rfl

theorem tweet_reads_unauthorized_witness :
    (route exampleVerify exampleStore (.getLikes (exampleRequest "tokCara" 1 ""))).2 =
        statusSend 401 "Invalid Request" ∧
      (route exampleVerify exampleStore (.getLikes (exampleRequest "tokCara" 9 ""))).2 =
        statusSend 401 "Invalid Request" :=
  ⟨(tweet_reads_unauthorized exampleVerify exampleStore (exampleRequest "tokCara" 1 "")
      "tokCara" ⟨"cara", 3⟩ (by decide) (by decide) _ (Or.inr (Or.inl rfl))).2.1 (by decide),
    (tweet_reads_unauthorized exampleVerify exampleStore (exampleRequest "tokCara" 9 "")
      "tokCara" ⟨"cara", 3⟩ (by decide) (by decide) _ (Or.inr (Or.inl rfl))).2.1 (by decide)⟩

/-! ## Registration: short passwords -/

/-- C3: a registration whose password has fewer than 6 UTF-16 code units is
answered with status 400 whatever the other fields are, and the store (so
the user table) is left as it was. -/
theorem register_short_password (hash : String → String) (db : Store) (request : Request)
    (hshort : jsLength request.body.password < 6) :
    (register hash db request).2.status = 400 ∧ (register hash db request).1 = db := by
  unfold register
  by_cases hex : (dbGet (db.user.filter fun row => row.username == request.body.username)).isSome
  · simp [hex, statusSend]
  · simp [hex, hshort, statusSend]

theorem register_short_password_witness :
    (register id exampleStore (exampleRegistration "alice" "abc")).2.status = 400 ∧
      (register id exampleStore (exampleRegistration "alice" "abc")).1 = exampleStore :=
  register_short_password id exampleStore (exampleRegistration "alice" "abc") (by decide)

/-! ## Deleting a tweet -/

theorem dbGet_filter_isNone_iff {α : Type} (rows : List α) (p : α → Bool) :
    (dbGet (rows.filter p)).isNone = true ↔ ¬ ∃ x ∈ rows, p x = true := by
  cases h : rows.filter p with
  | nil =>
    simp only [dbGet, List.head?_nil, Option.isNone_none, true_iff]
    rintro ⟨x, hx, hp⟩
    have : x ∈ rows.filter p := List.mem_filter.mpr ⟨hx, hp⟩
    rw [h] at this
    exact List.not_mem_nil _ this
  | cons a l =>
    simp only [dbGet, List.head?_cons, Option.isNone_some, Bool.false_eq_true, false_iff,
      not_not]
    have : a ∈ rows.filter p := by rw [h]; exact List.mem_cons_self _ _
    exact ⟨a, (List.mem_filter.mp this).1, (List.mem_filter.mp this).2⟩

/-- C5: when no tweet row has both the requested id and the caller as
author, the delete handler answers 401 and changes nothing; when such a row
exists it answers Tweet Removed, the tweet table keeps exactly the rows with
another id, and the like, reply, user and follower tables are unchanged. -/
theorem deleteTweetHandler_spec (db : Store) (request : AuthRequest) :
    ((¬ ∃ row ∈ db.tweet, row.tweet_id = request.tweetId ∧ row.user_id = request.userId) →
      deleteTweetHandler db request = (db, statusSend 401 "Invalid Request")) ∧
    ((∃ row ∈ db.tweet, row.tweet_id = request.tweetId ∧ row.user_id = request.userId) →
      (deleteTweetHandler db request).2 = send (.text "Tweet Removed") ∧
      (deleteTweetHandler db request).1.tweet =
        db.tweet.filter (fun row => decide (row.tweet_id ≠ request.tweetId)) ∧
      (deleteTweetHandler db request).1.like = db.like ∧
      (deleteTweetHandler db request).1.reply = db.reply ∧
      (deleteTweetHandler db request).1.user = db.user ∧
      (deleteTweetHandler db request).1.follower = db.follower) := by
  have key := dbGet_filter_isNone_iff db.tweet
    (fun row => row.tweet_id == request.tweetId && row.user_id == request.userId)
  simp only [Bool.and_eq_true, beq_iff_eq] at key
  constructor
  · intro hno
    unfold deleteTweetHandler
    simp only [key.mpr hno, if_true]
  · intro hyes
    have hnone : ¬ (dbGet (db.tweet.filter fun row =>
        row.tweet_id == request.tweetId && row.user_id == request.userId)).isNone = true :=
      fun h => key.mp h hyes
    unfold deleteTweetHandler
    simp only [hnone, if_false]
    refine ⟨rfl, ?_, rfl, rfl, rfl, rfl⟩
    apply List.filter_congr
    intro x _
    by_cases hx : x.tweet_id = request.tweetId <;> simp [hx]

theorem deleteTweetHandler_spec_witness :
    deleteTweetHandler exampleStore
        { exampleRequest "tokBob" 1 "" with username := "bob", userId := 2 } =
        (exampleStore, statusSend 401 "Invalid Request") ∧
      (deleteTweetHandler exampleStore
        { exampleRequest "tokAlice" 1 "" with username := "alice", userId := 1 }).1.tweet =
        [⟨2, "again", 1, "2021-04-08 10:00:00"⟩] ∧
      (deleteTweetHandler exampleStore
        { exampleRequest "tokAlice" 1 "" with username := "alice", userId := 1 }).1.like =
        [⟨1, 1, 2⟩, ⟨2, 1, 3⟩] :=
  ⟨(deleteTweetHandler_spec exampleStore _).1 (by decide),
    ((deleteTweetHandler_spec exampleStore
      { exampleRequest "tokAlice" 1 "" with username := "alice", userId := 1 }).2
        ⟨⟨1, "hello", 1, "2021-04-07 14:50:19"⟩, by decide, rfl, rfl⟩).2.1,
    ((deleteTweetHandler_spec exampleStore
      { exampleRequest "tokAlice" 1 "" with username := "alice", userId := 1 }).2
        ⟨⟨1, "hello", 1, "2021-04-07 14:50:19"⟩, by decide, rfl, rfl⟩).2.2.1⟩

/-! ## Count sub-queries and their joins -/

/-- Count row joined to a tweet id by a grouped sub-query over keys. -/
theorem groupCount_filter (keys : List Nat) (k : Nat) :
    (groupCount keys).filter (fun g => g.1 == k) =
      if k ∈ keys then [(k, keys.count k)] else [] := by
  unfold groupCount
  rw [List.filter_map]
  have hfil : List.filter ((fun g : Nat × Nat => g.1 == k) ∘ fun k => (k, keys.count k))
      keys.dedup = List.filter (fun x => x == k) keys.dedup := rfl
  rw [hfil, List.filter_beq, List.count_dedup]
  by_cases hk : k ∈ keys <;> simp [hk]

theorem leftJoin_eq_map {α β : Type} (l : List α) (r : List β) (cond : α → β → Bool)
    (f : α → Option β) (h : ∀ a ∈ l, r.filter (cond a) = (f a).toList) :
    leftJoin l r cond = l.map fun a => (a, f a) := by
  induction l with
  | nil => rfl
  | cons a l ih =>
    have ha := h a (List.mem_cons_self _ _)
    have ih2 := ih fun x hx => h x (List.mem_cons_of_mem _ hx)
    unfold leftJoin at ih2 ⊢
    rw [List.flatMap_cons, ih2, ha]
    cases hfa : f a <;> simp [hfa]

theorem countedJoin_groupCount (db : Store) (likeKeys replyKeys : List Nat) :
    countedJoin db (groupCount likeKeys) (groupCount replyKeys) =
      db.tweet.map fun t =>
        ((t, if t.tweet_id ∈ likeKeys then some (t.tweet_id, likeKeys.count t.tweet_id) else none),
          if t.tweet_id ∈ replyKeys then some (t.tweet_id, replyKeys.count t.tweet_id)
          else none) := by
  unfold countedJoin
  rw [leftJoin_eq_map db.tweet (groupCount likeKeys) (fun t lc => lc.1 == t.tweet_id)
    (fun t => if t.tweet_id ∈ likeKeys then some (t.tweet_id, likeKeys.count t.tweet_id)
      else none)]
  · rw [leftJoin_eq_map _ (groupCount replyKeys)
      (fun (tl : TweetRow × Option (Nat × Nat)) rc => rc.1 == tl.1.tweet_id)
      (fun (tl : TweetRow × Option (Nat × Nat)) => if tl.1.tweet_id ∈ replyKeys then
        some (tl.1.tweet_id, replyKeys.count tl.1.tweet_id) else none)]
    · rw [List.map_map]
      rfl
    · intro tl _
      rw [groupCount_filter]
      by_cases hk : tl.1.tweet_id ∈ replyKeys <;> simp [hk]
  · intro t _
    rw [groupCount_filter]
    by_cases hk : t.tweet_id ∈ likeKeys <;> simp [hk]

theorem coalesce0_joined (keys : List Nat) (k : Nat) :
    coalesce0 ((if k ∈ keys then some (k, keys.count k) else none).map Prod.snd) =
      keys.count k := by
  by_cases hk : k ∈ keys
  · simp [hk, coalesce0]
  · simp [hk, coalesce0, List.count_eq_zero.mpr hk]

theorem count_map_tweet_id {α : Type} (rows : List α) (f : α → Nat) (k : Nat) :
    (rows.map f).count k = rows.countP fun row => f row == k := by
  rw [List.count_eq_countP, List.countP_map]
  rfl

theorem count_filter_map_tweet_id {α : Type} (rows : List α) (f : α → Nat) (k : Nat) :
    ((rows.filter fun row => f row == k).map f).count k = rows.countP fun row => f row == k := by
  rw [count_map_tweet_id, List.countP_filter]
  congr 1
  funext row
  simp

/-! ## ORDER BY -/

theorem orderByDesc_perm {α : Type} (key : α → String) (rows : List α) :
    (orderByDesc key rows).Perm rows :=
  List.perm_insertionSort _ rows

theorem orderByDesc_sorted {α : Type} (key : α → String) (rows : List α) :
    (orderByDesc key rows).Sorted fun a b => sqlText (key b) ≤ sqlText (key a) := by
  haveI : IsTotal α (fun a b => sqlText (key b) ≤ sqlText (key a)) :=
    ⟨fun a b => le_total (sqlText (key b)) (sqlText (key a))⟩
  haveI : IsTrans α (fun a b => sqlText (key b) ≤ sqlText (key a)) :=
    ⟨fun _ _ _ hab hbc => le_trans hbc hab⟩
  exact List.sorted_insertionSort _ rows

theorem orderByDesc_map {α β : Type} (f : α → β) (key : β → String) (rows : List α) :
    orderByDesc key (rows.map f) = (orderByDesc (fun a => key (f a)) rows).map f := by
  unfold orderByDesc
  exact (List.map_insertionSort _ _ f rows fun _ _ _ _ => Iff.rfl).symm

/-! ## Own tweets -/

theorem userTweetsQuery_eq (db : Store) (userId : Nat) :
    userTweetsQuery db userId =
      (orderByDesc (fun t => t.date_time) (db.tweet.filter fun t => t.user_id == userId)).map
        fun t => ⟨t.tweet, db.like.countP (fun l => l.tweet_id == t.tweet_id),
          db.reply.countP (fun r => r.tweet_id == t.tweet_id), t.date_time⟩ := by
  unfold userTweetsQuery userTweetsRows
  simp only [countedJoin_groupCount, List.filter_map]
  rw [orderByDesc_map, List.map_map]
  apply List.map_congr_left
  intro t _
  simp only [Function.comp, detailsSelect]
  rw [coalesce0_joined, coalesce0_joined, count_map_tweet_id, count_map_tweet_id]

/-- C7: the own-tweets listing of user u is, in non-increasing dateTime order,
one entry for each tweet row with user_id = u and nothing else; the likes and
replies of an entry are the numbers of like and reply rows with the tweet's
id, so a tweet without likes and replies is listed with the numbers 0 and 0. -/
theorem userTweetsQuery_spec (db : Store) (u : Nat) :
    (∃ rows : List TweetRow,
      rows.Perm (db.tweet.filter fun t => t.user_id == u) ∧
      rows.Sorted (fun a b => sqlText b.date_time ≤ sqlText a.date_time) ∧
      userTweetsQuery db u = rows.map fun t =>
        ⟨t.tweet, db.like.countP (fun l => l.tweet_id == t.tweet_id),
          db.reply.countP (fun r => r.tweet_id == t.tweet_id), t.date_time⟩) ∧
    (userTweetsQuery db u).Sorted (fun a b => sqlText b.dateTime ≤ sqlText a.dateTime) ∧
    (∀ t ∈ db.tweet, t.user_id = u → (∀ l ∈ db.like, l.tweet_id ≠ t.tweet_id) →
      (∀ r ∈ db.reply, r.tweet_id ≠ t.tweet_id) →
      (⟨t.tweet, 0, 0, t.date_time⟩ : TweetDetails) ∈ userTweetsQuery db u) := by
  refine ⟨⟨_, orderByDesc_perm _ _, orderByDesc_sorted _ _, userTweetsQuery_eq db u⟩, ?_, ?_⟩
  · rw [userTweetsQuery_eq]
    exact List.pairwise_map.mpr (orderByDesc_sorted (fun t : TweetRow => t.date_time) _)
  · intro t ht hu hlikes hreplies
    rw [userTweetsQuery_eq, List.mem_map]
    refine ⟨t, (orderByDesc_perm _ _).mem_iff.mpr (List.mem_filter.mpr ⟨ht, by simp [hu]⟩), ?_⟩
    have h1 : db.like.countP (fun l => l.tweet_id == t.tweet_id) = 0 := by
      rw [List.countP_eq_zero]
      intro l hl
      simpa using hlikes l hl
    have h2 : db.reply.countP (fun r => r.tweet_id == t.tweet_id) = 0 := by
      rw [List.countP_eq_zero]
      intro r hr
      simpa using hreplies r hr
    rw [h1, h2]

theorem userTweetsQuery_spec_witness :
    (⟨"again", 0, 0, "2021-04-08 10:00:00"⟩ : TweetDetails) ∈ userTweetsQuery exampleStore 1 :=
  (userTweetsQuery_spec exampleStore 1).2.2 ⟨2, "again", 1, "2021-04-08 10:00:00"⟩
    (by decide) rfl (by decide) (by decide)

/-! ## Tweet details against the own-tweets listing -/

theorem filter_key_unique {α β : Type} [DecidableEq β] (f : α → β) (l : List α) (a : α)
    (hnodup : (l.map f).Nodup) (ha : a ∈ l) :
    l.filter (fun x => f x == f a) = [a] := by
  induction l with
  | nil => exact absurd ha (List.not_mem_nil _)
  | cons x xs ih =>
    rw [List.map_cons, List.nodup_cons] at hnodup
    obtain ⟨hx, hxs⟩ := hnodup
    rcases List.mem_cons.mp ha with rfl | hmem
    · have hnil : xs.filter (fun y => f y == f a) = [] := by
        rw [List.filter_eq_nil_iff]
        intro y hy hfy
        exact hx (by
          rw [← beq_iff_eq.mp hfy]
          exact List.mem_map_of_mem f hy)
      simp [List.filter_cons, hnil]
    · have hne : ¬ f x = f a := fun h => hx (h ▸ List.mem_map_of_mem f hmem)
      simp [List.filter_cons, hne, ih hxs hmem]

theorem userTweetsRows_eq (db : Store) (userId : Nat) :
    userTweetsRows db userId =
      (orderByDesc (fun t => t.date_time) (db.tweet.filter fun t => t.user_id == userId)).map
        fun t =>
          ((t, if t.tweet_id ∈ db.like.map (fun l => l.tweet_id) then
              some (t.tweet_id, (db.like.map fun l => l.tweet_id).count t.tweet_id) else none),
            if t.tweet_id ∈ db.reply.map (fun r => r.tweet_id) then
              some (t.tweet_id, (db.reply.map fun r => r.tweet_id).count t.tweet_id)
            else none) := by
  unfold userTweetsRows
  simp only [countedJoin_groupCount, List.filter_map]
  rw [orderByDesc_map]
  rfl

theorem tweetDetailsQuery_eq (db : Store) (t : TweetRow)
    (hunique : (db.tweet.map fun row => row.tweet_id).Nodup) (ht : t ∈ db.tweet) :
    tweetDetailsQuery db t.tweet_id =
      some ⟨t.tweet, db.like.countP (fun l => l.tweet_id == t.tweet_id),
        db.reply.countP (fun r => r.tweet_id == t.tweet_id), t.date_time⟩ := by
  unfold tweetDetailsQuery tweetDetailsRows
  simp only [countedJoin_groupCount, List.filter_map]
  have hfil : List.filter ((fun row : CountedRow => row.1.1.tweet_id == t.tweet_id) ∘ fun t1 =>
      ((t1, if t1.tweet_id ∈ (db.like.filter fun l => l.tweet_id == t.tweet_id).map
              (fun l => l.tweet_id) then
            some (t1.tweet_id, ((db.like.filter fun l => l.tweet_id == t.tweet_id).map
              fun l => l.tweet_id).count t1.tweet_id) else none),
        if t1.tweet_id ∈ (db.reply.filter fun r => r.tweet_id == t.tweet_id).map
              (fun r => r.tweet_id) then
            some (t1.tweet_id, ((db.reply.filter fun r => r.tweet_id == t.tweet_id).map
              fun r => r.tweet_id).count t1.tweet_id) else none)) db.tweet = [t] :=
    filter_key_unique (fun row : TweetRow => row.tweet_id) db.tweet t hunique ht
  rw [hfil]
  simp only [List.map_cons, List.map_nil, dbGet, List.head?_cons, detailsSelect]
  rw [coalesce0_joined, coalesce0_joined, count_filter_map_tweet_id, count_filter_map_tweet_id]

/-- C10: in a store with unique tweet ids, for a tweet row t authored by u,
the tweet detail query for t returns an object that is exactly the entry the
own-tweets listing of u holds for the row t, with the same like and reply
counts (the numbers of like and reply rows with the id of t). -/
theorem tweetDetails_eq_userTweets_entry (db : Store) (t : TweetRow) (u : Nat)
    (hunique : (db.tweet.map fun row => row.tweet_id).Nodup) (ht : t ∈ db.tweet)
    (hu : t.user_id = u) :
    ∃ e : TweetDetails,
      tweetDetailsQuery db t.tweet_id = some e ∧
      ((userTweetsRows db u).filter fun row => decide (row.1.1 = t)).map detailsSelect = [e] ∧
      e ∈ userTweetsQuery db u ∧
      e.likes = db.like.countP (fun l => l.tweet_id == t.tweet_id) ∧
      e.replies = db.reply.countP (fun r => r.tweet_id == t.tweet_id) := by
  have hrows : ((userTweetsRows db u).filter fun row => decide (row.1.1 = t)).map detailsSelect =
      [⟨t.tweet, db.like.countP (fun l => l.tweet_id == t.tweet_id),
        db.reply.countP (fun r => r.tweet_id == t.tweet_id), t.date_time⟩] := by
    rw [userTweetsRows_eq, List.filter_map]
    have hmem : t ∈ orderByDesc (fun t => t.date_time)
        (db.tweet.filter fun t => t.user_id == u) :=
      (orderByDesc_perm _ _).mem_iff.mpr (List.mem_filter.mpr ⟨ht, by simp [hu]⟩)
    have hnd : ((orderByDesc (fun t => t.date_time)
        (db.tweet.filter fun t => t.user_id == u)).map id).Nodup := by
      rw [List.map_id]
      exact ((orderByDesc_perm _ _).nodup_iff).mpr ((List.Nodup.of_map _ hunique).filter _)
    have hfil := filter_key_unique id _ t hnd hmem
    have hfil2 : List.filter ((fun row : CountedRow => decide (row.1.1 = t)) ∘ fun t1 =>
        ((t1, if t1.tweet_id ∈ db.like.map (fun l => l.tweet_id) then
            some (t1.tweet_id, (db.like.map fun l => l.tweet_id).count t1.tweet_id) else none),
          if t1.tweet_id ∈ db.reply.map (fun r => r.tweet_id) then
            some (t1.tweet_id, (db.reply.map fun r => r.tweet_id).count t1.tweet_id)
          else none))
        (orderByDesc (fun t => t.date_time) (db.tweet.filter fun t => t.user_id == u)) = [t] := by
      rw [← hfil]
      apply List.filter_congr
      intro x _
      by_cases hx : x = t <;> simp [Function.comp, hx]
    rw [hfil2]
    simp only [List.map_cons, List.map_nil, detailsSelect]
    rw [coalesce0_joined, coalesce0_joined, count_map_tweet_id, count_map_tweet_id]
  refine ⟨_, tweetDetailsQuery_eq db t hunique ht, hrows, ?_, rfl, rfl⟩
  have hin : (⟨t.tweet, db.like.countP (fun l => l.tweet_id == t.tweet_id),
      db.reply.countP (fun r => r.tweet_id == t.tweet_id), t.date_time⟩ : TweetDetails) ∈
      ((userTweetsRows db u).filter fun row => decide (row.1.1 = t)).map detailsSelect := by
    rw [hrows]
    exact List.mem_singleton_self _
  obtain ⟨row, hrow, heq⟩ := List.mem_map.mp hin
  exact List.mem_map.mpr ⟨row, (List.mem_filter.mp hrow).1, heq⟩

theorem tweetDetails_eq_userTweets_entry_witness :
    ∃ e : TweetDetails,
      tweetDetailsQuery exampleStore 1 = some e ∧
      ((userTweetsRows exampleStore 1).filter fun row =>
        decide (row.1.1 = ⟨1, "hello", 1, "2021-04-07 14:50:19"⟩)).map detailsSelect = [e] ∧
      e ∈ userTweetsQuery exampleStore 1 ∧
      e.likes = exampleStore.like.countP (fun l => l.tweet_id == 1) ∧
      e.replies = exampleStore.reply.countP (fun r => r.tweet_id == 1) :=
  tweetDetails_eq_userTweets_entry exampleStore ⟨1, "hello", 1, "2021-04-07 14:50:19"⟩ 1
    (by decide) (by decide) rfl

/-! ## Feed -/

theorem mem_feedJoin (db : Store) (u : Nat) (f : FollowerRow) (t : TweetRow) (usr : UserRow) :
    ((f, t), usr) ∈ feedJoin db u ↔
    f ∈ db.follower ∧ t ∈ db.tweet ∧ usr ∈ db.user ∧ f.follower_user_id = u ∧
      f.following_user_id = t.user_id ∧ usr.user_id = t.user_id := by
  unfold feedJoin
  rw [List.mem_filter, mem_innerJoin, mem_innerJoin]
  simp only [beq_iff_eq]
  tauto

theorem feedRows_sorted (db : Store) (u : Nat) :
    (feedRows db u).Sorted fun a b => sqlText b.1.2.date_time ≤ sqlText a.1.2.date_time :=
  (orderByDesc_sorted (fun row : (FollowerRow × TweetRow) × UserRow => row.1.2.date_time)
    _).sublist (List.take_sublist 4 _)

/-- C6 (amended): the feed of u has at most 4 entries, is sorted
non-increasing by dateTime, every entry is a tweet of an author that u follows
and that has a user row, and a tweet of such an author whose entry is not in
the feed is not newer than any returned entry. -/
theorem feedQuery_spec (db : Store) (u : Nat) :
    (feedQuery db u).length ≤ 4 ∧
    (feedQuery db u).Sorted (fun a b => sqlText b.dateTime ≤ sqlText a.dateTime) ∧
    (∀ e ∈ feedQuery db u, ∃ t ∈ db.tweet, ∃ f ∈ db.follower, ∃ usr ∈ db.user,
      f.follower_user_id = u ∧ f.following_user_id = t.user_id ∧ usr.user_id = t.user_id ∧
      e = ⟨usr.username, t.tweet, t.date_time⟩) ∧
    (∀ t ∈ db.tweet, ∀ f ∈ db.follower, ∀ usr ∈ db.user,
      f.follower_user_id = u → f.following_user_id = t.user_id → usr.user_id = t.user_id →
      (⟨usr.username, t.tweet, t.date_time⟩ : FeedEntry) ∉ feedQuery db u →
      ∀ e ∈ feedQuery db u, sqlText t.date_time ≤ sqlText e.dateTime) := by
  refine ⟨?_, ?_, ?_, ?_⟩
  · unfold feedQuery feedRows
    rw [List.length_map]
    exact List.length_take_le 4 _
  · unfold feedQuery
    exact List.pairwise_map.mpr (feedRows_sorted db u)
  · intro e he
    obtain ⟨⟨⟨f, t⟩, usr⟩, hrow, rfl⟩ := List.mem_map.mp he
    have hmem := (orderByDesc_perm _ _).mem_iff.mp (List.mem_of_mem_take hrow)
    rw [mem_feedJoin] at hmem
    obtain ⟨hf, ht, husr, h1, h2, h3⟩ := hmem
    exact ⟨t, ht, f, hf, usr, husr, h1, h2, h3, rfl⟩
  · intro t ht f hf usr husr h1 h2 h3 hout e he
    obtain ⟨x, hx, rfl⟩ := List.mem_map.mp he
    have hjoin := (mem_feedJoin db u f t usr).mpr ⟨hf, ht, husr, h1, h2, h3⟩
    have hall := (orderByDesc_perm
      (fun row : (FollowerRow × TweetRow) × UserRow => row.1.2.date_time) _).mem_iff.mpr hjoin
    rw [← List.take_append_drop 4 (orderByDesc _ _), List.mem_append] at hall
    rcases hall with htake | hdrop
    · exact absurd (List.mem_map.mpr ⟨((f, t), usr), htake, rfl⟩) hout
    · exact (orderByDesc_sorted
        (fun row : (FollowerRow × TweetRow) × UserRow => row.1.2.date_time)
        _).rel_of_mem_take_of_mem_drop hx hdrop

theorem feedQuery_spec_witness :
    ∀ e ∈ feedQuery busyStore 2, sqlText "2021-01-01 09:00:00" ≤ sqlText e.dateTime :=
  (feedQuery_spec busyStore 2).2.2.2 ⟨1, "one", 1, "2021-01-01 09:00:00"⟩
    (by decide) ⟨2, 1⟩ (by decide) ⟨1, "Alice", "alice", "h1", "f"⟩ (by decide) rfl rfl rfl
    (by decide)

/-- C6 as stated fails: user 1 follows user 2, whose tweet is newer than the
returned entry, yet the feed omits it because user 2 has no user row. -/
theorem feedQuery_omits_newer_tweet :
    ¬ (∀ t ∈ danglingAuthorStore.tweet,
        (∃ f ∈ danglingAuthorStore.follower,
          f.follower_user_id = 1 ∧ f.following_user_id = t.user_id) →
        (∀ e ∈ feedQuery danglingAuthorStore 1, e.tweet ≠ t.tweet) →
        ∀ e ∈ feedQuery danglingAuthorStore 1, ¬ sqlText e.dateTime < sqlText t.date_time) := by
  intro h
  have hfeed : feedQuery danglingAuthorStore 1 = [⟨"cara", "shown", "2021-01-01 00:00:00"⟩] := by
    decide
  exact h ⟨1, "hidden", 2, "2021-01-02 00:00:00"⟩ (by decide) ⟨⟨1, 2⟩, by decide, rfl, rfl⟩
    (by rw [hfeed]; decide) ⟨"cara", "shown", "2021-01-01 00:00:00"⟩ (by rw [hfeed]; decide)
    (by decide)

/-! ## Private listings -/

theorem filter_innerJoin_left {α β : Type} (l : List α) (r : List β) (cond : α → β → Bool)
    (q : α → Bool) :
    (innerJoin l r cond).filter (fun row => q row.1) = innerJoin (l.filter q) r cond := by
  induction l with
  | nil => rfl
  | cons a l ih =>
    have hcons : ∀ (x : α) (xs : List α), innerJoin (x :: xs) r cond =
        ((r.filter (cond x)).map fun b => (x, b)) ++ innerJoin xs r cond := fun _ _ => rfl
    rw [hcons, List.filter_append, ih, List.filter_map]
    cases hq : q a
    · have hnil : List.filter ((fun row : α × β => q row.1) ∘ fun b => (a, b))
          (r.filter (cond a)) = [] := by
        rw [List.filter_eq_nil_iff]
        intro b _
        simp [hq]
      rw [hnil, List.filter_cons_of_neg (by simp [hq])]
      rfl
    · have hall : List.filter ((fun row : α × β => q row.1) ∘ fun b => (a, b))
          (r.filter (cond a)) = r.filter (cond a) := by
        rw [List.filter_eq_self]
        intro b _
        simp [hq]
      rw [hall, List.filter_cons_of_pos (by simp [hq]), hcons]

theorem followingQuery_eq (db : Store) (userId : Nat) :
    followingQuery db userId =
      (innerJoin (db.follower.filter fun f => f.follower_user_id == userId) db.user
        fun f u => u.user_id == f.following_user_id).map fun row => row.2.name := by
  unfold followingQuery
  rw [← filter_innerJoin_left]

theorem followersQuery_eq (db : Store) (userId : Nat) :
    followersQuery db userId =
      (innerJoin (db.follower.filter fun f => f.following_user_id == userId) db.user
        fun f u => u.user_id == f.follower_user_id).map fun row => row.2.name := by
  unfold followersQuery
  rw [← filter_innerJoin_left]

theorem userTweetsRows_author (db : Store) (userId : Nat) :
    ∀ row ∈ userTweetsRows db userId, row.1.1.user_id = userId := by
  intro row hrow
  have hmem := (orderByDesc_perm _ _).mem_iff.mp hrow
  simpa using (List.mem_filter.mp hmem).2

/-- C8: two requests whose tokens carry the same userId A get the same
response from each private listing route, whatever else the requests hold
(header text, path parameter, body, username of the payload); every row of the
own-tweets listing is authored by A, hence by no other user B; the following
list depends on the follower table only through the rows with
follower_user_id = A, and the followers list only through the rows with
following_user_id = A. -/
theorem private_listings_keyed_by_userId (verify : String → Option Payload) (db : Store)
    (A B : Nat) (r1 r2 : Request) (tok1 tok2 : String) (p1 p2 : Payload)
    (htok1 : bearerToken r1 = some tok1) (hver1 : verify tok1 = some p1)
    (htok2 : bearerToken r2 = some tok2) (hver2 : verify tok2 = some p2)
    (hA1 : p1.userId = A) (hA2 : p2.userId = A) (hAB : A ≠ B) :
    (route verify db (.getUserTweets r1) = route verify db (.getUserTweets r2) ∧
      route verify db (.getFollowing r1) = route verify db (.getFollowing r2) ∧
      route verify db (.getFollowers r1) = route verify db (.getFollowers r2) ∧
      route verify db (.getFeed r1) = route verify db (.getFeed r2)) ∧
    (route verify db (.getUserTweets r1) = (db, send (.tweets (userTweetsQuery db A))) ∧
      route verify db (.getFollowing r1) = (db, send (.names (followingQuery db A))) ∧
      route verify db (.getFollowers r1) = (db, send (.names (followersQuery db A))) ∧
      route verify db (.getFeed r1) = (db, send (.feed (feedQuery db A)))) ∧
    (∀ row ∈ userTweetsRows db A, row.1.1.user_id = A ∧ row.1.1.user_id ≠ B) ∧
    (∀ db2 : Store, db2.user = db.user →
      (db2.follower.filter fun f => f.follower_user_id == A) =
        (db.follower.filter fun f => f.follower_user_id == A) →
      followingQuery db2 A = followingQuery db A) ∧
    (∀ db2 : Store, db2.user = db.user →
      (db2.follower.filter fun f => f.following_user_id == A) =
        (db.follower.filter fun f => f.following_user_id == A) →
      followersQuery db2 A = followersQuery db A) := by
  have h1 := fun (response : Response → Store × Response) next =>
    authenticateToken_ok verify r1 response next tok1 p1 htok1 hver1
  have h2 := fun (response : Response → Store × Response) next =>
    authenticateToken_ok verify r2 response next tok2 p2 htok2 hver2
  refine ⟨?_, ?_, ?_, ?_, ?_⟩
  · simp only [route, h1, h2, userTweetsHandler, followingHandler, followersHandler, feedHandler,
      hA1, hA2, and_self]
  · simp only [route, h1, userTweetsHandler, followingHandler, followersHandler, feedHandler,
      hA1, and_self]
  · intro row hrow
    have := userTweetsRows_author db A row hrow
    exact ⟨this, this ▸ hAB⟩
  · intro db2 huser hfol
    rw [followingQuery_eq, followingQuery_eq, huser, hfol]
  · intro db2 huser hfol
    rw [followersQuery_eq, followersQuery_eq, huser, hfol]

theorem private_listings_keyed_by_userId_witness :
    route exampleVerify exampleStore (.getUserTweets (exampleRequest "tokAlice" 7 "x")) =
      route exampleVerify exampleStore
        (.getUserTweets ⟨some "Token tokAlice ignored", 2, ⟨"bob", "", "", "", "y"⟩⟩) :=
  (private_listings_keyed_by_userId exampleVerify exampleStore 1 2
    (exampleRequest "tokAlice" 7 "x") ⟨some "Token tokAlice ignored", 2, ⟨"bob", "", "", "", "y"⟩⟩
    "tokAlice" "tokAlice" ⟨"alice", 1⟩ ⟨"alice", 1⟩ (by decide) (by decide) (by decide)
    (by decide) rfl rfl (by decide)).1.1

/-! ## Posting a tweet, then reading it -/

theorem lt_nextId (ids : List Nat) : ∀ x ∈ ids, x < nextId ids := by
  induction ids with
  | nil => intro x hx; exact absurd hx (List.not_mem_nil _)
  | cons a l ih =>
    intro x hx
    unfold nextId at ih ⊢
    rw [List.foldr_cons]
    rcases List.mem_cons.mp hx with rfl | hmem
    · exact Nat.lt_succ_of_le (le_max_left _ _)
    · exact lt_of_lt_of_le (ih x hmem) (Nat.succ_le_succ (le_max_right _ _))

theorem filter_innerJoin_right {α β : Type} (l : List α) (r : List β) (cond : α → β → Bool)
    (q : β → Bool) :
    (innerJoin l r cond).filter (fun row => q row.2) = innerJoin l (r.filter q) cond := by
  induction l with
  | nil => rfl
  | cons a l ih =>
    have hcons : ∀ (x : α) (xs : List α) (ys : List β), innerJoin (x :: xs) ys cond =
        ((ys.filter (cond x)).map fun b => (x, b)) ++ innerJoin xs ys cond := fun _ _ _ => rfl
    rw [hcons, hcons, List.filter_append, ih, List.filter_map]
    congr 2
    rw [List.filter_filter, List.filter_filter]
    apply List.filter_congr
    intro b _
    simp [Bool.and_comm]

theorem createTweet_feedJoin_old (db : Store) (dateTime : String) (request : AuthRequest)
    (B : Nat) :
    (feedJoin (createTweetHandler dateTime db request).1 B).filter
        (fun row => decide (row.1.2.tweet_id ≠ nextId (db.tweet.map fun t => t.tweet_id))) =
      feedJoin db B := by
  unfold feedJoin createTweetHandler
  simp only
  rw [List.filter_filter]
  have hcomm : ∀ l : List ((FollowerRow × TweetRow) × UserRow),
      l.filter (fun row => decide (row.1.2.tweet_id ≠ nextId (db.tweet.map fun t => t.tweet_id))
        && (row.1.1.follower_user_id == B)) =
      (l.filter fun row =>
        (fun ft : FollowerRow × TweetRow =>
          decide (ft.2.tweet_id ≠ nextId (db.tweet.map fun t => t.tweet_id))) row.1).filter
        fun row => row.1.1.follower_user_id == B := by
    intro l
    rw [List.filter_filter]
    apply List.filter_congr
    intro x _
    simp [Bool.and_comm]
  have hleft : ∀ X : List (FollowerRow × TweetRow),
      (innerJoin X db.user fun ft u => u.user_id == ft.2.user_id).filter
        (fun row => (fun ft : FollowerRow × TweetRow =>
          decide (ft.2.tweet_id ≠ nextId (db.tweet.map fun t => t.tweet_id))) row.1) =
      innerJoin (X.filter fun ft =>
          decide (ft.2.tweet_id ≠ nextId (db.tweet.map fun t => t.tweet_id)))
        db.user fun ft u => u.user_id == ft.2.user_id :=
    fun X => filter_innerJoin_left X db.user (fun ft u => u.user_id == ft.2.user_id)
      (fun ft => decide (ft.2.tweet_id ≠ nextId (db.tweet.map fun t => t.tweet_id)))
  have hright : ∀ T : List TweetRow,
      (innerJoin db.follower T fun f t => f.following_user_id == t.user_id).filter
        (fun ft => decide (ft.2.tweet_id ≠ nextId (db.tweet.map fun t => t.tweet_id))) =
      innerJoin db.follower
        (T.filter fun t => decide (t.tweet_id ≠ nextId (db.tweet.map fun t => t.tweet_id)))
        fun f t => f.following_user_id == t.user_id :=
    fun T => filter_innerJoin_right db.follower T
      (fun f t => f.following_user_id == t.user_id)
      (fun t => decide (t.tweet_id ≠ nextId (db.tweet.map fun t => t.tweet_id)))
  rw [hcomm, hleft]
  rw [hright, List.filter_append]
  have hold : db.tweet.filter
      (fun t => decide (t.tweet_id ≠ nextId (db.tweet.map fun t => t.tweet_id))) = db.tweet := by
    rw [List.filter_eq_self]
    intro t ht
    have := lt_nextId (db.tweet.map fun t => t.tweet_id) t.tweet_id (List.mem_map_of_mem _ ht)
    simpa using Nat.ne_of_lt this
  rw [hold]
  simp

theorem createTweet_feed_includes (db : Store) (dateTime : String) (request : AuthRequest)
    (B : Nat)
    (hB : ∃ f ∈ db.follower, f.follower_user_id = B ∧ f.following_user_id = request.userId)
    (husr : ∃ usr ∈ db.user, usr.user_id = request.userId)
    (hroom : (feedJoin db B).countP
      (fun row => decide (sqlText dateTime ≤ sqlText row.1.2.date_time)) < 4) :
    ∃ usr ∈ db.user, usr.user_id = request.userId ∧
      (⟨usr.username, request.body.tweet, dateTime⟩ : FeedEntry) ∈
        feedQuery (createTweetHandler dateTime db request).1 B := by
  obtain ⟨f, hf, hfB, hfA⟩ := hB
  obtain ⟨usr, husr, husrA⟩ := husr
  have hrow0 : ((f, (⟨nextId (db.tweet.map fun t => t.tweet_id), request.body.tweet,
      request.userId, dateTime⟩ : TweetRow)), usr) ∈
      feedJoin (createTweetHandler dateTime db request).1 B := by
    rw [mem_feedJoin]
    exact ⟨hf, by simp [createTweetHandler], husr, hfB, hfA, husrA⟩
  have hsorted := orderByDesc_sorted
    (fun row : (FollowerRow × TweetRow) × UserRow => row.1.2.date_time)
    (feedJoin (createTweetHandler dateTime db request).1 B)
  have hperm := orderByDesc_perm
    (fun row : (FollowerRow × TweetRow) × UserRow => row.1.2.date_time)
    (feedJoin (createTweetHandler dateTime db request).1 B)
  by_cases hin : ∃ row ∈ feedRows (createTweetHandler dateTime db request).1 B,
      row.1.2.tweet_id = nextId (db.tweet.map fun t => t.tweet_id)
  · obtain ⟨⟨⟨f1, t1⟩, u1⟩, hrow, hid⟩ := hin
    have hjoin := hperm.mem_iff.mp (List.mem_of_mem_take hrow)
    rw [mem_feedJoin] at hjoin
    obtain ⟨-, ht1, hu1, -, -, hu1t⟩ := hjoin
    have ht1new : t1 = ⟨nextId (db.tweet.map fun t => t.tweet_id), request.body.tweet,
        request.userId, dateTime⟩ := by
      simp only [createTweetHandler, List.mem_append, List.mem_singleton] at ht1
      rcases ht1 with hold | hnew
      · exact absurd hid (Nat.ne_of_lt
          (lt_nextId (db.tweet.map fun t => t.tweet_id) t1.tweet_id (List.mem_map_of_mem _ hold)))
      · exact hnew
    subst ht1new
    exact ⟨u1, hu1, hu1t, List.mem_map.mpr ⟨_, hrow, rfl⟩⟩
  · exfalso
    have hnot : ∀ row ∈ feedRows (createTweetHandler dateTime db request).1 B,
        row.1.2.tweet_id ≠ nextId (db.tweet.map fun t => t.tweet_id) :=
      fun row hrow hid => hin ⟨row, hrow, hid⟩
    have hall := hperm.mem_iff.mpr hrow0
    rw [← List.take_append_drop 4 (orderByDesc _ _), List.mem_append] at hall
    have hdrop : _ ∈ List.drop 4 (orderByDesc _ _) :=
      hall.resolve_left fun htake => hnot _ htake rfl
    have hlen : 4 ≤ (feedRows (createTweetHandler dateTime db request).1 B).length := by
      unfold feedRows
      rw [List.length_take]
      have hpos := List.length_pos_of_mem hdrop
      rw [List.length_drop] at hpos
      omega
    have hcount : (feedRows (createTweetHandler dateTime db request).1 B).countP
        (fun row => decide (sqlText dateTime ≤ sqlText row.1.2.date_time) &&
          decide (row.1.2.tweet_id ≠ nextId (db.tweet.map fun t => t.tweet_id))) =
        (feedRows (createTweetHandler dateTime db request).1 B).length := by
      rw [List.countP_eq_length]
      intro row hrow
      have hge := hsorted.rel_of_mem_take_of_mem_drop hrow hdrop
      simp only [Bool.and_eq_true, decide_eq_true_eq]
      exact ⟨hge, hnot row hrow⟩
    have hle := List.Sublist.countP_le
      (fun row : (FollowerRow × TweetRow) × UserRow =>
        decide (sqlText dateTime ≤ sqlText row.1.2.date_time) &&
          decide (row.1.2.tweet_id ≠ nextId (db.tweet.map fun t => t.tweet_id)))
      (List.take_sublist 4 (orderByDesc (fun row => row.1.2.date_time)
        (feedJoin (createTweetHandler dateTime db request).1 B)))
    have hnew : (feedJoin (createTweetHandler dateTime db request).1 B).countP
        (fun row => decide (sqlText dateTime ≤ sqlText row.1.2.date_time) &&
          decide (row.1.2.tweet_id ≠ nextId (db.tweet.map fun t => t.tweet_id))) =
        (feedJoin db B).countP
          (fun row => decide (sqlText dateTime ≤ sqlText row.1.2.date_time)) := by
      rw [← List.countP_filter, createTweet_feedJoin_old]
    rw [hperm.countP_eq, hnew] at hle
    unfold feedRows at hcount hlen
    omega

theorem createTweet_hidden_from_non_follower (db : Store) (dateTime : String)
    (request reader : AuthRequest)
    (hC : ¬ ∃ f ∈ db.follower,
      f.follower_user_id = reader.userId ∧ f.following_user_id = request.userId) :
    isFollowingUser (createTweetHandler dateTime db request).1 reader
      (nextId (db.tweet.map fun t => t.tweet_id)) = false := by
  rw [← Bool.not_eq_true, isFollowingUser_eq_true_iff]
  rintro ⟨tw, htw, hid, f, hf, hfC, hfA⟩
  simp only [createTweetHandler, List.mem_append, List.mem_singleton] at htw hf
  rcases htw with hold | hnew
  · exact Nat.ne_of_lt
      (lt_nextId (db.tweet.map fun t => t.tweet_id) tw.tweet_id (List.mem_map_of_mem _ hold)) hid
  · subst hnew
    exact hC ⟨f, hf, hfC, hfA⟩

/-- C9 (amended): let B follow A and let the reader C not follow A, and let A
post a tweet at clock reading d.  If A has a user row and fewer than 4 rows of
the feed join of B before the post have a dateTime at or after d, the feed of
B holds the new tweet; and GET /tweets/:id/ by C for the id of the new tweet
is answered 401. -/
theorem post_then_feed_and_gate (db : Store) (dateTime : String) (request reader : AuthRequest)
    (B : Nat)
    (hB : ∃ f ∈ db.follower, f.follower_user_id = B ∧ f.following_user_id = request.userId)
    (hC : ¬ ∃ f ∈ db.follower,
      f.follower_user_id = reader.userId ∧ f.following_user_id = request.userId)
    (hid : reader.tweetId = nextId (db.tweet.map fun t => t.tweet_id)) :
    ((∃ usr ∈ db.user, usr.user_id = request.userId) →
      (feedJoin db B).countP
        (fun row => decide (sqlText dateTime ≤ sqlText row.1.2.date_time)) < 4 →
      ∃ usr ∈ db.user, usr.user_id = request.userId ∧
        (⟨usr.username, request.body.tweet, dateTime⟩ : FeedEntry) ∈
          feedQuery (createTweetHandler dateTime db request).1 B) ∧
    (tweetDetailsHandler (createTweetHandler dateTime db request).1 reader).2 =
      statusSend 401 "Invalid Request" := by
  refine ⟨fun husr hroom => createTweet_feed_includes db dateTime request B hB husr hroom, ?_⟩
  have hgate := createTweet_hidden_from_non_follower db dateTime request reader hC
  unfold tweetDetailsHandler
  simp only [hid, hgate, Bool.not_false, if_true]

theorem post_then_feed_and_gate_witness :
    (∃ usr ∈ exampleStore.user, usr.user_id = 1 ∧
      (⟨usr.username, "new", "2021-04-09 08:00:00"⟩ : FeedEntry) ∈
        feedQuery (createTweetHandler "2021-04-09 08:00:00" exampleStore
          { exampleRequest "tokAlice" 0 "new" with username := "alice", userId := 1 }).1 2) ∧
      (tweetDetailsHandler (createTweetHandler "2021-04-09 08:00:00" exampleStore
          { exampleRequest "tokAlice" 0 "new" with username := "alice", userId := 1 }).1
        { exampleRequest "tokCara" 3 "" with username := "cara", userId := 3 }).2 =
        statusSend 401 "Invalid Request" :=
  ⟨(post_then_feed_and_gate exampleStore "2021-04-09 08:00:00"
      { exampleRequest "tokAlice" 0 "new" with username := "alice", userId := 1 }
      { exampleRequest "tokCara" 3 "" with username := "cara", userId := 3 } 2
      (by decide) (by decide) (by decide)).1 (by decide) (by decide),
    (post_then_feed_and_gate exampleStore "2021-04-09 08:00:00"
      { exampleRequest "tokAlice" 0 "new" with username := "alice", userId := 1 }
      { exampleRequest "tokCara" 3 "" with username := "cara", userId := 3 } 2
      (by decide) (by decide) (by decide)).2⟩

/-- C9 as stated fails: bob follows alice and cara does not, alice posts at a
clock reading older than four of her tweets, and the feed of bob, cut at 4
rows, does not hold the new tweet. -/
theorem feed_misses_new_tweet :
    (∃ f ∈ busyStore.follower, f.follower_user_id = 2 ∧ f.following_user_id = 1) ∧
      (¬ ∃ f ∈ busyStore.follower, f.follower_user_id = 3 ∧ f.following_user_id = 1) ∧
      ¬ ∃ e ∈ feedQuery (createTweetHandler "2021-01-01 12:00:00" busyStore
          { exampleRequest "tokAlice" 0 "late" with username := "alice", userId := 1 }).1 2,
        e.tweet = "late" := by
  decide

/-! ## Registration: one row per username -/

theorem register_fresh (hash : String → String) (db : Store) (request : Request)
    (hfresh : ∀ row ∈ db.user, row.username ≠ request.body.username)
    (hlen : 6 ≤ jsLength request.body.password) :
    register hash db request =
      ({ db with user := db.user ++
          [⟨nextId (db.user.map fun row => row.user_id), request.body.name,
            request.body.username, hash request.body.password, request.body.gender⟩] },
        send (.text "User created successfully")) := by
  have hnone : ¬ (dbGet (db.user.filter fun row => row.username == request.body.username)).isSome
      = true := by
    rw [dbGet_isSome_iff]
    rintro ⟨row, hrow⟩
    have := List.mem_filter.mp hrow
    exact hfresh row this.1 (by simpa using this.2)
  unfold register
  simp [hnone, Nat.not_lt.mpr hlen]

/-! ## Requests in flight -/

theorem advance_done (verify : String → Option Payload) (db : Store) (call : Call)
    (response : Response) :
    advance verify db ⟨call, .done response⟩ = (db, ⟨call, .done response⟩) := by
  cases call <;> rfl

theorem complete_eq_route (verify : String → Option Payload) (db : Store) (call : Call) :
    complete verify db call =
      ((route verify db call).1, ⟨call, .done (route verify db call).2⟩) := by
  cases call with
  | postRegister hash request =>
    by_cases h1 : (dbGet (db.user.filter fun row =>
        row.username == request.body.username)).isSome = true
    · simp [complete, advance, route, register, h1]
    · by_cases h2 : jsLength request.body.password < 6
      · simp [complete, advance, route, register, h1, h2]
      · simp [complete, advance, route, register, h1, h2]
  | postLogin compare sign request =>
    cases h1 : dbGet (db.user.filter fun row => row.username == request.body.username) with
    | none => simp [complete, advance, route, login, h1]
    | some dbUser =>
      cases h2 : compare request.body.password dbUser.password <;>
        simp [complete, advance, route, login, h1, h2]
  | getFeed request =>
    cases h1 : bearerToken request with
    | none => simp [complete, advance, route, authenticateToken, h1]
    | some jwtToken =>
      cases h2 : verify jwtToken with
      | none => simp [complete, advance, route, authenticateToken, h1, h2]
      | some payload => simp [complete, advance, route, authenticateToken, h1, h2, feedHandler]
  | getFollowing request =>
    cases h1 : bearerToken request with
    | none => simp [complete, advance, route, authenticateToken, h1]
    | some jwtToken =>
      cases h2 : verify jwtToken with
      | none => simp [complete, advance, route, authenticateToken, h1, h2]
      | some payload => simp [complete, advance, route, authenticateToken, h1, h2, followingHandler]
  | getFollowers request =>
    cases h1 : bearerToken request with
    | none => simp [complete, advance, route, authenticateToken, h1]
    | some jwtToken =>
      cases h2 : verify jwtToken with
      | none => simp [complete, advance, route, authenticateToken, h1, h2]
      | some payload => simp [complete, advance, route, authenticateToken, h1, h2, followersHandler]
  | getTweet request =>
    cases h1 : bearerToken request with
    | none => simp [complete, advance, route, authenticateToken, h1]
    | some jwtToken =>
      cases h2 : verify jwtToken with
      | none => simp [complete, advance, route, authenticateToken, h1, h2]
      | some payload =>
        cases h3 : isFollowingUser db
            { request with username := payload.username, userId := payload.userId }
            request.tweetId <;>
          simp [complete, advance, route, authenticateToken, h1, h2, h3, tweetDetailsHandler]
  | getLikes request =>
    cases h1 : bearerToken request with
    | none => simp [complete, advance, route, authenticateToken, h1]
    | some jwtToken =>
      cases h2 : verify jwtToken with
      | none => simp [complete, advance, route, authenticateToken, h1, h2]
      | some payload =>
        cases h3 : isFollowingUser db
            { request with username := payload.username, userId := payload.userId }
            request.tweetId <;>
          simp [complete, advance, route, authenticateToken, h1, h2, h3, likesHandler]
  | getReplies request =>
    cases h1 : bearerToken request with
    | none => simp [complete, advance, route, authenticateToken, h1]
    | some jwtToken =>
      cases h2 : verify jwtToken with
      | none => simp [complete, advance, route, authenticateToken, h1, h2]
      | some payload =>
        cases h3 : isFollowingUser db
            { request with username := payload.username, userId := payload.userId }
            request.tweetId <;>
          simp [complete, advance, route, authenticateToken, h1, h2, h3, repliesHandler]
  | getUserTweets request =>
    cases h1 : bearerToken request with
    | none => simp [complete, advance, route, authenticateToken, h1]
    | some jwtToken =>
      cases h2 : verify jwtToken with
      | none => simp [complete, advance, route, authenticateToken, h1, h2]
      | some payload => simp [complete, advance, route, authenticateToken, h1, h2, userTweetsHandler]
  | postUserTweets dateTime request =>
    cases h1 : bearerToken request with
    | none => simp [complete, advance, route, authenticateToken, h1]
    | some jwtToken =>
      cases h2 : verify jwtToken with
      | none => simp [complete, advance, route, authenticateToken, h1, h2]
      | some payload => simp [complete, advance, route, authenticateToken, h1, h2]
  | deleteTweet request =>
    cases h1 : bearerToken request with
    | none => simp [complete, advance, route, authenticateToken, h1]
    | some jwtToken =>
      cases h2 : verify jwtToken with
      | none => simp [complete, advance, route, authenticateToken, h1, h2]
      | some payload =>
        cases h3 : (dbGet (db.tweet.filter fun row =>
            row.tweet_id == request.tweetId && row.user_id == payload.userId)).isNone <;>
          simp [complete, advance, route, authenticateToken, h1, h2, h3, deleteTweetHandler]

theorem advance_call (verify : String → Option Payload) (db : Store) (task : Task) :
    (advance verify db task).2.call = task.call := by
  obtain ⟨call, phase⟩ := task
  cases call <;> cases phase <;> simp only [advance, authenticateToken] <;>
    (repeat' split) <;> rfl

theorem advance_user (verify : String → Option Payload) (db : Store) (task : Task) :
    (advance verify db task).1.user = db.user ∨
      ∃ hash request hashedPassword,
        task.call = .postRegister hash request ∧ task.phase = .registerInsert hashedPassword ∧
        (advance verify db task).1.user = db.user ++
          [⟨nextId (db.user.map fun row => row.user_id), request.body.name,
            request.body.username, hashedPassword, request.body.gender⟩] := by
  obtain ⟨call, phase⟩ := task
  cases call <;> cases phase <;> simp only [advance, authenticateToken] <;>
    first
      | exact Or.inr ⟨_, _, _, rfl, rfl, rfl⟩
      | ((repeat' split) <;> first | exact Or.inl rfl | exact Or.inl trivial)

theorem advance_pending_register_existing (verify : String → Option Payload) (db : Store)
    (hash : String → String) (request : Request)
    (hex : ∃ row ∈ db.user, row.username = request.body.username) :
    advance verify db ⟨.postRegister hash request, .pending⟩ =
      (db, ⟨.postRegister hash request, .done (statusSend 400 "User already exists")⟩) := by
  have hsome : (dbGet (db.user.filter fun row => row.username == request.body.username)).isSome
      = true := by
    rw [dbGet_isSome_iff]
    obtain ⟨row, hrow, hname⟩ := hex
    exact ⟨row, List.mem_filter.mpr ⟨hrow, by simp [hname]⟩⟩
  simp only [advance, hsome, if_true]

theorem exists_of_one_row (db : Store) (u : String)
    (hone : (db.user.filter fun row => row.username == u).length = 1) :
    ∃ row ∈ db.user, row.username = u := by
  have hpos : 0 < (db.user.filter fun row => row.username == u).length := by omega
  obtain ⟨row, hrow⟩ := List.exists_mem_of_length_pos hpos
  have := List.mem_filter.mp hrow
  exact ⟨row, this.1, by simpa using this.2⟩

theorem advance_keeps_username (verify : String → Option Payload) (db : Store) (task : Task)
    (u : String) (hone : (db.user.filter fun row => row.username == u).length = 1)
    (hok : ∀ hash request, task.call = .postRegister hash request →
      request.body.username = u →
      task.phase = .pending ∨ task.phase = .done (statusSend 400 "User already exists")) :
    ((advance verify db task).1.user.filter fun row => row.username == u).length = 1 ∧
    ∀ hash request, (advance verify db task).2.call = .postRegister hash request →
      request.body.username = u →
      (advance verify db task).2.phase = .pending ∨
        (advance verify db task).2.phase = .done (statusSend 400 "User already exists") := by
  have hcall := advance_call verify db task
  rcases advance_user verify db task with hsame | ⟨hash, request, hp, hc, hph, huser⟩
  · refine ⟨by rw [hsame]; exact hone, ?_⟩
    intro hash request hc hu
    rw [hcall] at hc
    obtain ⟨call, phase⟩ := task
    simp only at hc
    subst hc
    rcases hok hash request rfl hu with hpend | hdone
    · simp only at hpend
      subst hpend
      rw [advance_pending_register_existing verify db hash request
        (hu ▸ exists_of_one_row db u hone)]
      exact Or.inr rfl
    · simp only at hdone
      subst hdone
      rw [advance_done]
      exact Or.inr rfl
  · have hne : ¬ request.body.username = u := by
      intro hu
      rcases hok hash request hc hu with hpend | hdone
      · rw [hph] at hpend
        exact Phase.noConfusion hpend
      · rw [hph] at hdone
        exact Phase.noConfusion hdone
    refine ⟨?_, ?_⟩
    · rw [huser]
      simp [List.filter_append, hne, hone]
    · intro hash2 request2 hc2 hu2
      rw [hcall, hc] at hc2
      injection hc2 with _ hreq
      exact absurd (hreq ▸ hu2) hne

theorem interleave_keeps_username (verify : String → Option Payload) (u : String)
    (schedule : List Nat) :
    ∀ (db : Store) (tasks : List Task),
      (db.user.filter fun row => row.username == u).length = 1 →
      (∀ task ∈ tasks, ∀ hash request, task.call = .postRegister hash request →
        request.body.username = u →
        task.phase = .pending ∨ task.phase = .done (statusSend 400 "User already exists")) →
      ((interleave verify db tasks schedule).1.user.filter
          fun row => row.username == u).length = 1 ∧
        ∀ task ∈ (interleave verify db tasks schedule).2, ∀ hash request,
          task.call = .postRegister hash request → request.body.username = u →
          task.phase = .pending ∨ task.phase = .done (statusSend 400 "User already exists") := by
  induction schedule with
  | nil => intro db tasks hone hok; exact ⟨hone, hok⟩
  | cons i schedule ih =>
    intro db tasks hone hok
    unfold interleave
    cases hget : tasks.get? i with
    | none => exact ih db tasks hone hok
    | some task =>
      have hstep := advance_keeps_username verify db task u hone
        (hok task (List.get?_mem hget))
      refine ih _ _ hstep.1 ?_
      intro x hx
      rcases List.mem_or_eq_of_mem_set hx with hold | hnew
      · exact hok x hold
      · rw [hnew]
        exact hstep.2

/-- C4 (amended): when no user row has username u, a registration of u with
a password of at least 6 code units that runs with nothing in between answers
User created successfully and appends exactly one user row, with username u.
For all requests that arrive after it, however they are interleaved at their
awaits: the user table keeps exactly one row with username u, every
registration of u among them is waiting or answered 400 User already exists,
and the username check of a registration of u answers 400 User already
exists and leaves the store as it is. -/
theorem register_username_once (verify : String → Option Payload) (hash : String → String)
    (db : Store) (request : Request)
    (hfresh : ∀ row ∈ db.user, row.username ≠ request.body.username)
    (hlen : 6 ≤ jsLength request.body.password) :
    complete verify db (.postRegister hash request) =
      ((register hash db request).1,
        ⟨.postRegister hash request, .done (send (.text "User created successfully"))⟩) ∧
    (∃ row : UserRow, row.username = request.body.username ∧
      (register hash db request).1.user = db.user ++ [row]) ∧
    (∀ (calls : List Call) (schedule : List Nat),
      ((interleave verify (register hash db request).1
          (calls.map fun call => ⟨call, .pending⟩) schedule).1.user.filter
        fun row => row.username == request.body.username).length = 1 ∧
      (∀ task ∈ (interleave verify (register hash db request).1
          (calls.map fun call => ⟨call, .pending⟩) schedule).2,
        ∀ hash2 request2, task.call = .postRegister hash2 request2 →
          request2.body.username = request.body.username →
          task.phase = .pending ∨
            task.phase = .done (statusSend 400 "User already exists")) ∧
      (∀ hash2 request2, request2.body.username = request.body.username →
        advance verify (interleave verify (register hash db request).1
            (calls.map fun call => ⟨call, .pending⟩) schedule).1
          ⟨.postRegister hash2 request2, .pending⟩ =
        ((interleave verify (register hash db request).1
            (calls.map fun call => ⟨call, .pending⟩) schedule).1,
          ⟨.postRegister hash2 request2, .done (statusSend 400 "User already exists")⟩))) := by
  have hreg := register_fresh hash db request hfresh hlen
  have hzero : db.user.filter (fun row => row.username == request.body.username) = [] := by
    rw [List.filter_eq_nil_iff]
    intro row hrow
    simpa using hfresh row hrow
  have hone : ((register hash db request).1.user.filter
      fun row => row.username == request.body.username).length = 1 := by
    rw [hreg]
    simp [List.filter_append, hzero]
  refine ⟨?_, ⟨_, rfl, by rw [hreg]⟩, ?_⟩
  · rw [complete_eq_route]
    simp only [route, hreg]
  · intro calls schedule
    have hinv := interleave_keeps_username verify request.body.username schedule
      (register hash db request).1 (calls.map fun call => ⟨call, .pending⟩) hone
      (by
        intro task htask _ _ _ _
        obtain ⟨call, _, rfl⟩ := List.mem_map.mp htask
        exact Or.inl rfl)
    refine ⟨hinv.1, hinv.2, ?_⟩
    intro hash2 request2 hname
    exact advance_pending_register_existing verify _ hash2 request2
      (hname ▸ exists_of_one_row _ _ hinv.1)

theorem register_username_once_witness :
    ((interleave exampleVerify
        (register id exampleStore (exampleRegistration "dave" "secret1")).1
        ([.postRegister id (exampleRegistration "dave" "other-password"),
          .postRegister id (exampleRegistration "erin" "secret2"),
          .postUserTweets "2021-04-09 08:00:00" (exampleRequest "tokAlice" 0 "new")].map
          fun call => ⟨call, .pending⟩)
        [1, 0, 1, 2, 1]).1.user.filter fun row => row.username == "dave").length = 1 :=
  ((register_username_once exampleVerify id exampleStore (exampleRegistration "dave" "secret1")
    (by decide) (by decide)).2.2
    [.postRegister id (exampleRegistration "dave" "other-password"),
      .postRegister id (exampleRegistration "erin" "secret2"),
      .postUserTweets "2021-04-09 08:00:00" (exampleRequest "tokAlice" 0 "new")]
    [1, 0, 1, 2, 1]).1

/-- C4 as stated fails: two registrations of dave arrive at a store without
dave; the second runs its username check while the first is suspended before
its INSERT; both are answered User created successfully and the user table
ends with two rows for dave. -/
theorem overlapping_registrations_both_succeed :
    (∀ row ∈ exampleStore.user, row.username ≠ "dave") ∧
      (interleave exampleVerify exampleStore
        [⟨.postRegister id (exampleRegistration "dave" "secret1"), .pending⟩,
          ⟨.postRegister id (exampleRegistration "dave" "secret2"), .pending⟩]
        [0, 1, 0, 0, 1, 1]).2.map (fun task => task.phase) =
        [.done (send (.text "User created successfully")),
          .done (send (.text "User created successfully"))] ∧
      ((interleave exampleVerify exampleStore
        [⟨.postRegister id (exampleRegistration "dave" "secret1"), .pending⟩,
          ⟨.postRegister id (exampleRegistration "dave" "secret2"), .pending⟩]
        [0, 1, 0, 0, 1, 1]).1.user.filter fun row => row.username == "dave").length = 2 := by
  decide

end Twitter
